import Mathlib

/-
Verification of the serial-port option conversion and device-activation
logic of `serial/open_darwin.go` (package `serial`).

The Go source is shallowly embedded: machine integers become `Nat`
(with an explicit `% 256` where the source's narrowing `cc_t`/`byte`
conversion can actually truncate), the `termios` struct becomes a Lean
structure whose control-character array is a 20-element list, and the
fallible conversion function returns `Except String termios`, carrying
the source's exact `errors.New` message strings.  The device-activation
sequence `openInternal` is embedded against an explicit environment
record that fixes the outcome of each OS call (open, fcntl, ioctl); the
embedding additionally returns the list of file descriptors closed
during the call, so that descriptor-leak properties are expressible.
-/

namespace GoSerial

/- sys/termios.h constants, verbatim from the source. -/

def kCS5 : Nat := 0x00000000

def kCS6 : Nat := 0x00000100

def kCS7 : Nat := 0x00000200

def kCS8 : Nat := 0x00000300

def kCLOCAL : Nat := 0x00008000

def kCREAD : Nat := 0x00000800

def kCSTOPB : Nat := 0x00000400

def kIGNPAR : Nat := 0x00000004

def kPARENB : Nat := 0x00001000

def kPARODD : Nat := 0x00002000

def kNCCS : Nat := 20

def kVMIN : Nat := 16

def kVTIME : Nat := 17

/-- The Go type `cc_t` is `byte`; a Go conversion `cc_t(v)` of an
unsigned value keeps the low 8 bits.  This truncation is the only
narrowing conversion in the source that can actually discard bits. -/
def cc_t (v : Nat) : Nat := v % 256

/-- The `termios` struct of the source (`c_iflag`, `c_oflag`, `c_cflag`,
`c_lflag` of Go type `tcflag_t = uint64`; `c_cc` an array of `kNCCS = 20`
bytes; `c_ispeed`, `c_ospeed` of Go type `speed_t = uint64`).  All flag
words are ORs of constants below `2 ^ 16` and both speeds are at most
`230400`, so the `uint64` arithmetic never wraps and `Nat` is exact. -/
structure termios where
  c_iflag : Nat
  c_oflag : Nat
  c_cflag : Nat
  c_lflag : Nat
  c_cc : List Nat
  c_ispeed : Nat
  c_ospeed : Nat
deriving Repr, DecidableEq

/-- Modelled from the spec: the portable options record (the spec's
`PortOptions`, the source's `OpenOptions`) is declared in a repository
file outside `src/`; only its use inside `convertOptions` and
`openInternal` is visible there.  Per spec section 3 it carries the port
path, the numeric rate/framing fields (non-negative integers, Go
`uint`), the parity enumeration, and the two read-timing fields. -/
structure OpenOptions where
  portName : String
  baudRate : Nat
  dataBits : Nat
  stopBits : Nat
  parityMode : Nat
  minimumReadSize : Nat
  interCharacterTimeout : Nat
deriving Repr, DecidableEq

/-- Modelled from the spec: the `ParityMode` enumeration
{NONE, ODD, EVEN} is declared outside `src/`; its members are modelled
as the distinct codes 0, 1, 2 in declaration order. -/
def PARITY_NONE : Nat := 0

/-- Modelled from the spec: see `PARITY_NONE`. -/
def PARITY_ODD : Nat := 1

/-- Modelled from the spec: see `PARITY_NONE`. -/
def PARITY_EVEN : Nat := 2

/-- The source computes
`vtime := uint(round(float64(options.InterCharacterTimeout)/100.0) * 100)`
with `round(f) = math.Floor(f + 0.5)`.  For every `t` in the range where
the `float64` arithmetic is exact this equals
`((t + 50) / 100) * 100` in integer arithmetic (floor division):
`float64(t)` is exact for `t < 2 ^ 53`; the correctly rounded quotient
`t/100.0` then lies within `2 ^ -53 * t / 100` of the rational `t / 100`,
which for `t ≤ 10 ^ 15` is closer than `1 / 100` and therefore never on
the other side of a half-integer boundary `k + 1/2` (and when
`t % 100 = 50` the quotient `k + 1/2` is itself exactly representable);
adding `0.5`, taking the floor and multiplying by `100` are then exact.
Every value the validation thresholds (100 and 25500) distinguish is far
inside that range, and beyond it both the float computation and this
formula produce a value rejected by the `vtime > 25500` check (the Go
language leaves float-to-uint conversion of astronomically large results
implementation-defined; saturating implementations also reject). -/
def vtimeOf (t : Nat) : Nat := ((t + 50) / 100) * 100

/-- The `switch options.BaudRate` statement of `convertOptions`
(lines 137-162): each listed rate has an empty case body, every other
value hits `default` and fails. -/
def baudRateOk (b : Nat) : Bool :=
  match b with
  | 50 => true
  | 75 => true
  | 110 => true
  | 134 => true
  | 150 => true
  | 200 => true
  | 300 => true
  | 600 => true
  | 1200 => true
  | 1800 => true
  | 2400 => true
  | 4800 => true
  | 7200 => true
  | 9600 => true
  | 14400 => true
  | 19200 => true
  | 28800 => true
  | 38400 => true
  | 57600 => true
  | 76800 => true
  | 115200 => true
  | 230400 => true
  | _ => false

/-- The `switch options.DataBits` statement of `convertOptions`
(lines 170-181): the character-size bits ORed into `c_cflag`, or `none`
for the `default` (error) case. -/
def csBitsOf (d : Nat) : Option Nat :=
  match d with
  | 5 => some kCS5
  | 6 => some kCS6
  | 7 => some kCS7
  | 8 => some kCS8
  | _ => none

/-- The `switch options.StopBits` statement (lines 184-191): 1 leaves
`c_cflag` unchanged (ORs 0), 2 ORs `kCSTOPB`, anything else errors. -/
def stopFlagOf (s : Nat) : Option Nat :=
  match s with
  | 1 => some 0
  | 2 => some kCSTOPB
  | _ => none

/-- The `switch options.ParityMode` statement (lines 194-210):
`PARITY_NONE` ORs nothing, `PARITY_ODD` ORs `kPARENB ||| kPARODD`,
`PARITY_EVEN` ORs `kPARENB`, anything else errors.  The patterns 0, 1, 2
are the modelled codes of `PARITY_NONE`, `PARITY_ODD`, `PARITY_EVEN`. -/
def parityBitsOf (p : Nat) : Option Nat :=
  match p with
  | 0 => some 0
  | 1 => some (kPARENB ||| kPARODD)
  | 2 => some kPARENB
  | _ => none

/-- Function `convertOptions` (lines 107-213).  The result `termios` is built in
source order: `c_cflag` starts from `kCLOCAL ||| kCREAD`, the timing
checks run first, `c_cc[kVTIME]` and `c_cc[kVMIN]` receive the narrowed
tenths value and minimum read size, then the baud-rate, data-bits,
stop-bits and parity switches either OR their bits or return the
corresponding `errors.New` message.  Error paths return no structure,
so the order in which `c_cc` is filled relative to the later switches is
unobservable and the construction is written as one final record. -/
def convertOptions (options : OpenOptions) : Except String termios :=
  if options.minimumReadSize = 0 ∧ vtimeOf options.interCharacterTimeout < 100 then
    .error "Invalid values for InterCharacterTimeout and MinimumReadSize."
  else if 25500 < vtimeOf options.interCharacterTimeout then
    .error "Invalid value for InterCharacterTimeout."
  else if baudRateOk options.baudRate = false then
    .error "Invalid setting for BaudRate."
  else
    match csBitsOf options.dataBits with
    | none => .error "Invalid setting for DataBits."
    | some cs =>
      match stopFlagOf options.stopBits with
      | none => .error "Invalid setting for StopBits."
      | some st =>
        match parityBitsOf options.parityMode with
        | none => .error "Invalid setting for ParityMode."
        | some pb =>
          .ok
            { c_iflag := 0
              c_oflag := 0
              c_cflag := ((((0 ||| kCLOCAL) ||| kCREAD) ||| cs) ||| st) ||| pb
              c_lflag := 0
              c_cc :=
                ((List.replicate kNCCS 0).set kVTIME
                    (cc_t (vtimeOf options.interCharacterTimeout / 100))).set kVMIN
                  (cc_t options.minimumReadSize)
              c_ispeed := options.baudRate
              c_ospeed := options.baudRate }

/-- The control-character slot `i` of a successful conversion. -/
def ccSlot (r : Except String termios) (i : Nat) : Option Nat :=
  match r with
  | .ok t => t.c_cc.get? i
  | .error _ => none

/-- Errors surfaced by `openInternal`: the error returned by
`os.OpenFile`, an `os.NewSyscallError(call, errno)` wrapper (non-nil
exactly when `errno` is nonzero), or a plain `errors.New` message
(including every validation message of `convertOptions`). -/
inductive OpenErr where
  | osError (msg : String)
  | sysError (call : String) (errno : Nat)
  | goError (msg : String)
deriving Repr, DecidableEq

/-- Outcomes of the three OS calls `openInternal` makes, fixed by the
environment: the result of `os.OpenFile` (a descriptor or an error), and
the `(r1, errno)` pair of the `SYS_FCNTL` and `SYS_IOCTL` syscalls. -/
structure SysEnv where
  openFileResult : Except String Nat
  fcntlR1 : Nat
  fcntlErrno : Nat
  ioctlR1 : Nat
  ioctlErrno : Nat
deriving Repr

/-- Function `setTermios` (lines 81-101): issues the `TIOCSETA` ioctl; a nonzero
`errno` surfaces as `os.NewSyscallError("SYS_IOCTL", errno)`, and — as a
defensive double-check — a nonzero return value `r1` surfaces as
`errors.New("Unknown error from SYS_IOCTL.")`.  The descriptor and the
structure are forwarded to the OS and do not influence the modelled
outcome, which the environment fixes. -/
def setTermios (env : SysEnv) (fd : Nat) (src : termios) : Except OpenErr Unit :=
  if env.ioctlErrno ≠ 0 then .error (.sysError "SYS_IOCTL" env.ioctlErrno)
  else if env.ioctlR1 ≠ 0 then .error (.goError "Unknown error from SYS_IOCTL.")
  else .ok ()

/-- Function `openInternal` (lines 215-257), with an explicit descriptor-close
trace.  The first component is the returned result; the second lists, in
order, every file descriptor the function closes before returning.  The
source opens the device, clears the non-blocking flag with `SYS_FCNTL`
(whose syscall error is wrapped — verbatim from the source — under the
label "SYS_IOCTL"), converts the options, and applies them with
`setTermios`; it contains no `Close` call on any path, so the trace is
empty in every branch. -/
def openInternal (env : SysEnv) (options : OpenOptions) :
    Except OpenErr Nat × List Nat :=
  match env.openFileResult with
  | .error e => (.error (.osError e), [])
  | .ok fd =>
    if env.fcntlErrno ≠ 0 then (.error (.sysError "SYS_IOCTL" env.fcntlErrno), [])
    else if env.fcntlR1 ≠ 0 then (.error (.goError "Unknown error from SYS_FCNTL."), [])
    else
      match convertOptions options with
      | .error e => (.error (.goError e), [])
      | .ok terminalOptions =>
        match setTermios env fd terminalOptions with
        | .error e => (.error e, [])
        | .ok _ => (.ok fd, [])

/-- The conjunction of the two timing checks of `convertOptions`
(lines 124-130) holding, i.e. neither timing error fires. -/
def timingOk (o : OpenOptions) : Prop :=
  ¬(o.minimumReadSize = 0 ∧ vtimeOf o.interCharacterTimeout < 100) ∧
    vtimeOf o.interCharacterTimeout ≤ 25500

instance (o : OpenOptions) : Decidable (timingOk o) := by
  unfold timingOk; infer_instance

/- Concrete inputs used by witnesses and counterexamples below. -/

/-- A fully valid options record. -/
def oGood : OpenOptions :=
  { portName := "/dev/cu.usbserial", baudRate := 19200, dataBits := 8, stopBits := 1,
    parityMode := PARITY_NONE, minimumReadSize := 1, interCharacterTimeout := 0 }

/-- Valid except for the unsupported baud rate 12345. -/
def oBadBaud : OpenOptions := { oGood with baudRate := 12345 }

/-- Environment in which every OS call of the open sequence succeeds
(descriptor 3 is handed out by `os.OpenFile`). -/
def envAllOk : SysEnv :=
  { openFileResult := .ok 3, fcntlR1 := 0, fcntlErrno := 0, ioctlR1 := 0, ioctlErrno := 0 }

/-- Environment in which the mode-switch `SYS_FCNTL` call reports
errno 22 (EINVAL) after a successful open of descriptor 3. -/
def envFcntlFails : SysEnv := { envAllOk with fcntlErrno := 22 }

/-- Environment in which the `TIOCSETA` ioctl reports errno 5 (EIO)
after a successful open of descriptor 3. -/
def envIoctlFails : SysEnv := { envAllOk with ioctlErrno := 5 }

/-- MinimumReadSize 0 with InterCharacterTimeout 50, remaining fields
valid (the input of C2's first example). -/
def oMin0Ict50 : OpenOptions :=
  { portName := "", baudRate := 9600, dataBits := 8, stopBits := 1,
    parityMode := PARITY_NONE, minimumReadSize := 0, interCharacterTimeout := 50 }

/-- MinimumReadSize 0 with InterCharacterTimeout 100 (C2's second
example). -/
def oMin0Ict100 : OpenOptions := { oMin0Ict50 with interCharacterTimeout := 100 }

/-- MinimumReadSize 256: one more than fits the one-byte MIN slot. -/
def oMin256 : OpenOptions :=
  { portName := "", baudRate := 9600, dataBits := 8, stopBits := 1,
    parityMode := PARITY_NONE, minimumReadSize := 256, interCharacterTimeout := 0 }

/-- InterCharacterTimeout 149 (rounds down to 100). -/
def oIct149 : OpenOptions := { oGood with interCharacterTimeout := 149 }

/-- InterCharacterTimeout 150 (rounds up to 200). -/
def oIct150 : OpenOptions := { oGood with interCharacterTimeout := 150 }

/-- InterCharacterTimeout 25550 (rounds up to 25600, past the limit). -/
def oIct25550 : OpenOptions := { oGood with interCharacterTimeout := 25550 }

/-- InterCharacterTimeout 30000 (far past the limit). -/
def oIct30000 : OpenOptions := { oGood with interCharacterTimeout := 30000 }

/-- The termios structure produced for `oGood` (used to instantiate the
success-premise theorems at a concrete input). -/
def tGood : termios :=
  { c_iflag := 0, c_oflag := 0, c_cflag := 35584, c_lflag := 0,
    c_cc := [0, 0, 0, 0, 0, 0, 0, 0, 0, 0, 0, 0, 0, 0, 0, 0, 1, 0, 0, 0],
    c_ispeed := 19200, c_ospeed := 19200 }

/-- A second copy of `oGood` under its own name, reserved to the C10
witness so that no two claims share supporting definitions. -/
def oGoodC10 : OpenOptions := { oGood with baudRate := 9600 }

/-- The termios structure produced for `oGoodC10`. -/
def tGoodC10 : termios := { tGood with c_ispeed := 9600, c_ospeed := 9600 }

/-- The full list of supported baud rates (the cases of the source's
`switch options.BaudRate`). -/
def supportedRates : List Nat :=
  [50, 75, 110, 134, 150, 200, 300, 600, 1200, 1800, 2400, 4800, 7200,
    9600, 14400, 19200, 28800, 38400, 57600, 76800, 115200, 230400]

/- Structural lemmas about the conversion. -/

/-- On inputs passing every check, `convertOptions` returns exactly the
structure assembled by the source. -/
theorem convertOptions_eq_ok (o : OpenOptions) (cs st pb : Nat)
    (ht : timingOk o)
    (hb : baudRateOk o.baudRate = true)
    (hcs : csBitsOf o.dataBits = some cs)
    (hst : stopFlagOf o.stopBits = some st)
    (hpb : parityBitsOf o.parityMode = some pb) :
    convertOptions o = .ok
      { c_iflag := 0
        c_oflag := 0
        c_cflag := ((((0 ||| kCLOCAL) ||| kCREAD) ||| cs) ||| st) ||| pb
        c_lflag := 0
        c_cc :=
          ((List.replicate kNCCS 0).set kVTIME
              (cc_t (vtimeOf o.interCharacterTimeout / 100))).set kVMIN
            (cc_t o.minimumReadSize)
        c_ispeed := o.baudRate
        c_ospeed := o.baudRate } := by
  obtain ⟨h1, h2⟩ := ht
  unfold convertOptions
  rw [if_neg h1, if_neg (by omega), if_neg (by simp [hb]), hcs, hst, hpb]

/-- The first timing check: a zero minimum read size with a rounded
timeout below 100 ms fails. -/
theorem convertOptions_err_timing_low (o : OpenOptions)
    (hm : o.minimumReadSize = 0) (hv : vtimeOf o.interCharacterTimeout < 100) :
    convertOptions o =
      .error "Invalid values for InterCharacterTimeout and MinimumReadSize." := by
  unfold convertOptions
  rw [if_pos ⟨hm, hv⟩]

/-- The second timing check: a rounded timeout above 25500 ms fails
(the first check cannot fire, since such a timeout is not below 100). -/
theorem convertOptions_err_timing_high (o : OpenOptions)
    (hv : 25500 < vtimeOf o.interCharacterTimeout) :
    convertOptions o = .error "Invalid value for InterCharacterTimeout." := by
  unfold convertOptions
  rw [if_neg (fun hc => absurd hc.2 (by omega)), if_pos hv]

/-- An unsupported baud rate fails once the timing checks pass. -/
theorem convertOptions_err_baud (o : OpenOptions)
    (ht : timingOk o) (hb : baudRateOk o.baudRate = false) :
    convertOptions o = .error "Invalid setting for BaudRate." := by
  obtain ⟨h1, h2⟩ := ht
  unfold convertOptions
  rw [if_neg h1, if_neg (by omega), if_pos hb]

/-- An unsupported data-bits value fails once the earlier checks pass. -/
theorem convertOptions_err_data (o : OpenOptions)
    (ht : timingOk o) (hb : baudRateOk o.baudRate = true)
    (hd : csBitsOf o.dataBits = none) :
    convertOptions o = .error "Invalid setting for DataBits." := by
  obtain ⟨h1, h2⟩ := ht
  unfold convertOptions
  rw [if_neg h1, if_neg (by omega), if_neg (by simp [hb]), hd]

/-- An unsupported stop-bits value fails once the earlier checks pass. -/
theorem convertOptions_err_stop (o : OpenOptions) (cs : Nat)
    (ht : timingOk o) (hb : baudRateOk o.baudRate = true)
    (hcs : csBitsOf o.dataBits = some cs)
    (hs : stopFlagOf o.stopBits = none) :
    convertOptions o = .error "Invalid setting for StopBits." := by
  obtain ⟨h1, h2⟩ := ht
  unfold convertOptions
  rw [if_neg h1, if_neg (by omega), if_neg (by simp [hb]), hcs, hs]

/-- An unsupported parity mode fails once the earlier checks pass. -/
theorem convertOptions_err_parity (o : OpenOptions) (cs st : Nat)
    (ht : timingOk o) (hb : baudRateOk o.baudRate = true)
    (hcs : csBitsOf o.dataBits = some cs)
    (hst : stopFlagOf o.stopBits = some st)
    (hp : parityBitsOf o.parityMode = none) :
    convertOptions o = .error "Invalid setting for ParityMode." := by
  obtain ⟨h1, h2⟩ := ht
  unfold convertOptions
  rw [if_neg h1, if_neg (by omega), if_neg (by simp [hb]), hcs, hst, hp]

/-- Inversion: a successful conversion pins down every check and the
returned structure. -/
theorem convertOptions_ok_inv (o : OpenOptions) (t : termios)
    (h : convertOptions o = .ok t) :
    ∃ cs st pb, csBitsOf o.dataBits = some cs ∧ stopFlagOf o.stopBits = some st ∧
      parityBitsOf o.parityMode = some pb ∧ timingOk o ∧
      baudRateOk o.baudRate = true ∧
      t = { c_iflag := 0
            c_oflag := 0
            c_cflag := ((((0 ||| kCLOCAL) ||| kCREAD) ||| cs) ||| st) ||| pb
            c_lflag := 0
            c_cc :=
              ((List.replicate kNCCS 0).set kVTIME
                  (cc_t (vtimeOf o.interCharacterTimeout / 100))).set kVMIN
                (cc_t o.minimumReadSize)
            c_ispeed := o.baudRate
            c_ospeed := o.baudRate } := by
  unfold convertOptions at h
  split at h
  · exact Except.noConfusion h
  rename_i h1
  split at h
  · exact Except.noConfusion h
  rename_i h2
  split at h
  · exact Except.noConfusion h
  rename_i h3
  split at h
  · exact Except.noConfusion h
  rename_i cs hcs
  split at h
  · exact Except.noConfusion h
  rename_i st hst
  split at h
  · exact Except.noConfusion h
  rename_i pb hpb
  refine ⟨cs, st, pb, hcs, hst, hpb, ⟨h1, by omega⟩, ?_, (Except.ok.inj h).symm⟩
  cases hbv : baudRateOk o.baudRate
  · exact absurd hbv h3
  · rfl

/-- The baud-rate switch accepts exactly the enumerated rates. -/
theorem baudRateOk_iff (b : Nat) : baudRateOk b = true ↔ b ∈ supportedRates := by
  constructor
  · intro h
    unfold baudRateOk at h
    unfold supportedRates
    split at h <;> simp_all
  · intro h
    unfold supportedRates at h
    fin_cases h <;> rfl

/-- Valid data-bits values have character-size bits. -/
theorem csBitsOf_of_mem (d : Nat) (h : d ∈ [5, 6, 7, 8]) :
    ∃ cs, csBitsOf d = some cs := by
  fin_cases h <;> exact ⟨_, rfl⟩

/-- Invalid data-bits values map to `none`. -/
theorem csBitsOf_of_not_mem (d : Nat) (h : d ∉ [5, 6, 7, 8]) :
    csBitsOf d = none := by
  unfold csBitsOf
  split <;> simp_all

/-- The character-size bits are one of the four patterns. -/
theorem csBitsOf_some_cases (d cs : Nat) (h : csBitsOf d = some cs) :
    cs = kCS5 ∨ cs = kCS6 ∨ cs = kCS7 ∨ cs = kCS8 := by
  unfold csBitsOf at h
  split at h <;> simp_all [kCS5, kCS6, kCS7, kCS8]

/-- Valid stop-bits values have a stop flag. -/
theorem stopFlagOf_of_mem (s : Nat) (h : s ∈ [1, 2]) :
    ∃ st, stopFlagOf s = some st := by
  fin_cases h <;> exact ⟨_, rfl⟩

/-- Invalid stop-bits values map to `none`. -/
theorem stopFlagOf_of_not_mem (s : Nat) (h : s ∉ [1, 2]) :
    stopFlagOf s = none := by
  unfold stopFlagOf
  split <;> simp_all

/-- The stop flag is either absent or `kCSTOPB`. -/
theorem stopFlagOf_some_cases (s st : Nat) (h : stopFlagOf s = some st) :
    st = 0 ∨ st = kCSTOPB := by
  unfold stopFlagOf at h
  split at h <;> simp_all [kCSTOPB]

/-- Valid parity modes have parity bits. -/
theorem parityBitsOf_of_mem (p : Nat) (h : p ∈ [PARITY_NONE, PARITY_ODD, PARITY_EVEN]) :
    ∃ pb, parityBitsOf p = some pb := by
  fin_cases h <;> exact ⟨_, rfl⟩

/-- Invalid parity modes map to `none`. -/
theorem parityBitsOf_of_not_mem (p : Nat)
    (h : p ∉ [PARITY_NONE, PARITY_ODD, PARITY_EVEN]) :
    parityBitsOf p = none := by
  unfold parityBitsOf
  split <;> simp_all [PARITY_NONE, PARITY_ODD, PARITY_EVEN]

/-- The parity bits are one of the three patterns. -/
theorem parityBitsOf_some_cases (p pb : Nat) (h : parityBitsOf p = some pb) :
    pb = 0 ∨ pb = (kPARENB ||| kPARODD) ∨ pb = kPARENB := by
  unfold parityBitsOf at h
  split at h <;> simp_all [kPARENB, kPARODD]

/-- Extraction of each flag group from the assembled control-flags word:
the character-size field (mask `0x300`), the two baseline flags, the
stop-bit flag and the two parity bits are mutually non-interfering. -/
theorem cflag_extract (cs st pb : Nat)
    (hcs : cs = kCS5 ∨ cs = kCS6 ∨ cs = kCS7 ∨ cs = kCS8)
    (hst : st = 0 ∨ st = kCSTOPB)
    (hpb : pb = 0 ∨ pb = (kPARENB ||| kPARODD) ∨ pb = kPARENB) :
    (((((0 ||| kCLOCAL) ||| kCREAD) ||| cs) ||| st) ||| pb) &&& 0x300 = cs ∧
    (((((0 ||| kCLOCAL) ||| kCREAD) ||| cs) ||| st) ||| pb) &&& kCLOCAL = kCLOCAL ∧
    (((((0 ||| kCLOCAL) ||| kCREAD) ||| cs) ||| st) ||| pb) &&& kCREAD = kCREAD ∧
    (((((0 ||| kCLOCAL) ||| kCREAD) ||| cs) ||| st) ||| pb) &&& kCSTOPB = st ∧
    (((((0 ||| kCLOCAL) ||| kCREAD) ||| cs) ||| st) ||| pb) &&& kPARENB = pb &&& kPARENB ∧
    (((((0 ||| kCLOCAL) ||| kCREAD) ||| cs) ||| st) ||| pb) &&& kPARODD = pb &&& kPARODD := by
  rcases hcs with rfl | rfl | rfl | rfl <;> rcases hst with rfl | rfl <;>
    rcases hpb with rfl | rfl | rfl <;> decide

/-- Every control-character slot other than MIN (16) and TIME (17) of
the assembled table is zero. -/
theorem cc_other_slots (x y i : Nat) (hi : i < 20) (h16 : i ≠ 16) (h17 : i ≠ 17) :
    (((List.replicate kNCCS 0).set kVTIME x).set kVMIN y).get? i = some 0 := by
  interval_cases i <;> first | rfl | (exact absurd rfl h16) | (exact absurd rfl h17)

/- Claim theorems. -/

/-- C1 (code bug): the claim says a failure at any step after the device
has been opened closes the opened descriptor exactly once before the
error is returned.  The source of `openInternal` contains no `Close`
call at all, so the close trace of the embedding is empty on the
mode-switch failure path, on the option-validation failure path, and on
the termios-apply failure path alike: descriptor 3, successfully opened
in each of these runs, is leaked, never closed once. -/
theorem spec_C1_open_failure_leaks_descriptor :
    openInternal envFcntlFails oGood = (.error (.sysError "SYS_IOCTL" 22), []) ∧
    openInternal envAllOk oBadBaud =
      (.error (.goError "Invalid setting for BaudRate."), []) ∧
    openInternal envIoctlFails oGood = (.error (.sysError "SYS_IOCTL" 5), []) :=
  ⟨rfl, rfl, rfl⟩

/-- C2 counterexample: the claim says MinimumReadSize 0 with
InterCharacterTimeout 50 fails the timing validation; in fact the source
first rounds 50 half-up to 100, which passes the `vtime < 100` check, so
the conversion succeeds and stores 1 in the TIME slot. -/
theorem spec_C2_counterexample :
    (convertOptions oMin0Ict50).isOk = true ∧
      ccSlot (convertOptions oMin0Ict50) 17 = some 1 :=
  ⟨rfl, rfl⟩

/-- C2 as amended: with MinimumReadSize 0 and the other fields valid,
conversion succeeds exactly when InterCharacterTimeout is between 50 and
25549 (so that its half-up rounding is between 100 and 25500); at 49 it
fails with the invalid-timing error, and at both 50 and 100 it succeeds
and stores 1 in the TIME control-character slot (index 17). -/
theorem spec_C2_min_zero_timeout_threshold (o : OpenOptions)
    (hm : o.minimumReadSize = 0)
    (hb : baudRateOk o.baudRate = true)
    (hd : o.dataBits ∈ [5, 6, 7, 8])
    (hs : o.stopBits ∈ [1, 2])
    (hp : o.parityMode ∈ [PARITY_NONE, PARITY_ODD, PARITY_EVEN]) :
    ((convertOptions o).isOk = true ↔
      50 ≤ o.interCharacterTimeout ∧ o.interCharacterTimeout ≤ 25549) ∧
    (o.interCharacterTimeout = 49 →
      convertOptions o =
        .error "Invalid values for InterCharacterTimeout and MinimumReadSize.") ∧
    (o.interCharacterTimeout = 50 → ccSlot (convertOptions o) 17 = some 1) ∧
    (o.interCharacterTimeout = 100 → ccSlot (convertOptions o) 17 = some 1) := by
  obtain ⟨cs, hcs⟩ := csBitsOf_of_mem _ hd
  obtain ⟨st, hst⟩ := stopFlagOf_of_mem _ hs
  obtain ⟨pb, hpb⟩ := parityBitsOf_of_mem _ hp
  refine ⟨⟨?_, ?_⟩, ?_, ?_, ?_⟩
  · intro hok
    by_cases h1 : o.interCharacterTimeout < 50
    · rw [convertOptions_err_timing_low o hm (by unfold vtimeOf; omega)] at hok
      exact absurd hok (by decide)
    · by_cases h2 : 25549 < o.interCharacterTimeout
      · rw [convertOptions_err_timing_high o (by unfold vtimeOf; omega)] at hok
        exact absurd hok (by decide)
      · exact ⟨by omega, by omega⟩
  · rintro ⟨hge, hle⟩
    have ht : timingOk o := by unfold timingOk vtimeOf; omega
    rw [convertOptions_eq_ok o cs st pb ht hb hcs hst hpb]
    rfl
  · intro h49
    exact convertOptions_err_timing_low o hm (by rw [h49]; decide)
  · intro h50
    have ht : timingOk o := by unfold timingOk vtimeOf; omega
    rw [convertOptions_eq_ok o cs st pb ht hb hcs hst hpb, h50]
    rfl
  · intro h100
    have ht : timingOk o := by unfold timingOk vtimeOf; omega
    rw [convertOptions_eq_ok o cs st pb ht hb hcs hst hpb, h100]
    rfl

/-- C2 witness: the amended theorem applied at MinimumReadSize 0,
InterCharacterTimeout 100, remaining fields valid. -/
theorem spec_C2_witness : (convertOptions oMin0Ict100).isOk = true :=
  (spec_C2_min_zero_timeout_threshold oMin0Ict100 rfl rfl (by decide) (by decide)
      (by decide)).1.mpr (by decide)

/-- C3 (code bug): the claim says a successful conversion stores
MinimumReadSize itself in the MIN slot and never succeeds while silently
storing a different value.  The source applies the narrowing conversion
`cc_t(vmin)` with no range check, so MinimumReadSize 256 (other fields
valid) converts successfully and the MIN slot (index 16) holds
`256 % 256 = 0`, not 256. -/
theorem spec_C3_min_slot_truncation :
    (convertOptions oMin256).isOk = true ∧
      ccSlot (convertOptions oMin256) 16 = some 0 :=
  ⟨rfl, rfl⟩

/-- C4: `vtimeOf` is the multiple of 100 nearest its argument with ties
rounded up (it is divisible by 100 and `vtimeOf t ≤ t + 50 < vtimeOf t + 100`
pins it to the unique multiple of 100 in the half-open window
`[t - 49, t + 50]`); whenever the rounded value exceeds 25500 the
conversion fails with the invalid-timing error; and concretely 149
rounds to 100 (stored tenths 1), 150 rounds to 200 (stored tenths 2),
and 25550 rounds to 25600 and fails. -/
theorem spec_C4_vtime_rounding :
    (∀ t : Nat, vtimeOf t % 100 = 0 ∧ vtimeOf t ≤ t + 50 ∧ t + 50 < vtimeOf t + 100) ∧
    (∀ o : OpenOptions, 25500 < vtimeOf o.interCharacterTimeout →
      convertOptions o = .error "Invalid value for InterCharacterTimeout.") ∧
    ccSlot (convertOptions oIct149) 17 = some 1 ∧
    ccSlot (convertOptions oIct150) 17 = some 2 ∧
    convertOptions oIct25550 = .error "Invalid value for InterCharacterTimeout." :=
  ⟨fun t => by unfold vtimeOf; omega,
    fun o h => convertOptions_err_timing_high o h, rfl, rfl, rfl⟩

/-- C4 witness: the failure branch applied at InterCharacterTimeout
30000, whose rounding 30000 exceeds 25500. -/
theorem spec_C4_witness :
    convertOptions oIct30000 = .error "Invalid value for InterCharacterTimeout." :=
  spec_C4_vtime_rounding.2.1 oIct30000 (by decide)

/-- C5: with the timing and framing fields valid, conversion succeeds
for exactly the 22 enumerated baud rates, and then both speed fields
equal the numeric rate; every other rate fails with the invalid-baud-rate
error. -/
theorem spec_C5_baud_rates (o : OpenOptions)
    (ht : timingOk o)
    (hd : o.dataBits ∈ [5, 6, 7, 8])
    (hs : o.stopBits ∈ [1, 2])
    (hp : o.parityMode ∈ [PARITY_NONE, PARITY_ODD, PARITY_EVEN]) :
    (o.baudRate ∈ supportedRates →
      ∃ t, convertOptions o = .ok t ∧ t.c_ispeed = o.baudRate ∧
        t.c_ospeed = o.baudRate) ∧
    (o.baudRate ∉ supportedRates →
      convertOptions o = .error "Invalid setting for BaudRate.") := by
  obtain ⟨cs, hcs⟩ := csBitsOf_of_mem _ hd
  obtain ⟨st, hst⟩ := stopFlagOf_of_mem _ hs
  obtain ⟨pb, hpb⟩ := parityBitsOf_of_mem _ hp
  constructor
  · intro hbm
    exact ⟨_, convertOptions_eq_ok o cs st pb ht ((baudRateOk_iff _).mpr hbm)
      hcs hst hpb, rfl, rfl⟩
  · intro hbm
    have hbf : baudRateOk o.baudRate = false := by
      cases hbv : baudRateOk o.baudRate
      · rfl
      · exact absurd ((baudRateOk_iff _).mp hbv) hbm
    exact convertOptions_err_baud o ht hbf

/-- C5 witness: applied at the fully valid record `oGood`
(rate 19200). -/
theorem spec_C5_witness :
    ∃ t, convertOptions oGood = .ok t ∧ t.c_ispeed = oGood.baudRate ∧
      t.c_ospeed = oGood.baudRate :=
  (spec_C5_baud_rates oGood (by decide) (by decide) (by decide) (by decide)).1
    (by decide)

/-- C6: with the other fields valid, every DataBits outside {5,6,7,8}
fails with the invalid-data-bits error, and every DataBits inside it
succeeds with the character-size field of the control-flags word (mask
`0x300`) equal to the pattern for that value and distinct from the three
other patterns. -/
theorem spec_C6_data_bits (o : OpenOptions)
    (ht : timingOk o)
    (hb : baudRateOk o.baudRate = true)
    (hs : o.stopBits ∈ [1, 2])
    (hp : o.parityMode ∈ [PARITY_NONE, PARITY_ODD, PARITY_EVEN]) :
    (o.dataBits ∉ [5, 6, 7, 8] →
      convertOptions o = .error "Invalid setting for DataBits.") ∧
    (o.dataBits ∈ [5, 6, 7, 8] →
      ∃ t cs, convertOptions o = .ok t ∧ csBitsOf o.dataBits = some cs ∧
        t.c_cflag &&& 0x300 = cs ∧
        ∀ p ∈ [kCS5, kCS6, kCS7, kCS8], p ≠ cs → t.c_cflag &&& 0x300 ≠ p) := by
  obtain ⟨st, hst⟩ := stopFlagOf_of_mem _ hs
  obtain ⟨pb, hpb⟩ := parityBitsOf_of_mem _ hp
  constructor
  · intro hdm
    exact convertOptions_err_data o ht hb (csBitsOf_of_not_mem _ hdm)
  · intro hdm
    obtain ⟨cs, hcs⟩ := csBitsOf_of_mem _ hdm
    have hx := cflag_extract cs st pb (csBitsOf_some_cases _ _ hcs)
      (stopFlagOf_some_cases _ _ hst) (parityBitsOf_some_cases _ _ hpb)
    refine ⟨_, cs, convertOptions_eq_ok o cs st pb ht hb hcs hst hpb, hcs,
      hx.1, ?_⟩
    intro p hpm hpne hcontra
    exact hpne ((hx.1.symm.trans hcontra).symm)

/-- C6 witness: applied at `oGood` (DataBits 8, pattern CS8). -/
theorem spec_C6_witness :
    ∃ t cs, convertOptions oGood = .ok t ∧ csBitsOf oGood.dataBits = some cs ∧
      t.c_cflag &&& 0x300 = cs ∧
      ∀ p ∈ [kCS5, kCS6, kCS7, kCS8], p ≠ cs → t.c_cflag &&& 0x300 ≠ p :=
  (spec_C6_data_bits oGood (by decide) rfl (by decide) (by decide)).2 (by decide)

/-- C7: with the other fields valid, parity mode NONE succeeds with both
parity flags clear, ODD succeeds with parity-enable and odd-parity both
set, EVEN succeeds with parity-enable set and odd-parity clear, and any
other mode fails with the invalid-parity-mode error. -/
theorem spec_C7_parity (o : OpenOptions)
    (ht : timingOk o)
    (hb : baudRateOk o.baudRate = true)
    (hd : o.dataBits ∈ [5, 6, 7, 8])
    (hs : o.stopBits ∈ [1, 2]) :
    (o.parityMode = PARITY_NONE →
      ∃ t, convertOptions o = .ok t ∧ t.c_cflag &&& kPARENB = 0 ∧
        t.c_cflag &&& kPARODD = 0) ∧
    (o.parityMode = PARITY_ODD →
      ∃ t, convertOptions o = .ok t ∧ t.c_cflag &&& kPARENB = kPARENB ∧
        t.c_cflag &&& kPARODD = kPARODD) ∧
    (o.parityMode = PARITY_EVEN →
      ∃ t, convertOptions o = .ok t ∧ t.c_cflag &&& kPARENB = kPARENB ∧
        t.c_cflag &&& kPARODD = 0) ∧
    (o.parityMode ∉ [PARITY_NONE, PARITY_ODD, PARITY_EVEN] →
      convertOptions o = .error "Invalid setting for ParityMode.") := by
  obtain ⟨cs, hcs⟩ := csBitsOf_of_mem _ hd
  obtain ⟨st, hst⟩ := stopFlagOf_of_mem _ hs
  refine ⟨?_, ?_, ?_, ?_⟩
  · intro hpm
    have hpb : parityBitsOf o.parityMode = some 0 := by rw [hpm]; rfl
    refine ⟨_, convertOptions_eq_ok o cs st 0 ht hb hcs hst hpb, ?_, ?_⟩ <;>
      rcases csBitsOf_some_cases _ _ hcs with rfl | rfl | rfl | rfl <;>
        rcases stopFlagOf_some_cases _ _ hst with rfl | rfl <;>
          (simp only []; decide)
  · intro hpm
    have hpb : parityBitsOf o.parityMode = some (kPARENB ||| kPARODD) := by
      rw [hpm]; rfl
    refine ⟨_, convertOptions_eq_ok o cs st (kPARENB ||| kPARODD) ht hb hcs hst hpb,
      ?_, ?_⟩ <;>
      rcases csBitsOf_some_cases _ _ hcs with rfl | rfl | rfl | rfl <;>
        rcases stopFlagOf_some_cases _ _ hst with rfl | rfl <;>
          (simp only []; decide)
  · intro hpm
    have hpb : parityBitsOf o.parityMode = some kPARENB := by rw [hpm]; rfl
    refine ⟨_, convertOptions_eq_ok o cs st kPARENB ht hb hcs hst hpb, ?_, ?_⟩ <;>
      rcases csBitsOf_some_cases _ _ hcs with rfl | rfl | rfl | rfl <;>
        rcases stopFlagOf_some_cases _ _ hst with rfl | rfl <;>
          (simp only []; decide)
  · intro hpm
    exact convertOptions_err_parity o cs st ht hb hcs hst
      (parityBitsOf_of_not_mem _ hpm)

/-- C7 witness: applied at `oGood` (parity NONE). -/
theorem spec_C7_witness :
    ∃ t, convertOptions oGood = .ok t ∧ t.c_cflag &&& kPARENB = 0 ∧
      t.c_cflag &&& kPARODD = 0 :=
  (spec_C7_parity oGood (by decide) rfl (by decide) (by decide)).1 rfl

/-- C8: with the other fields valid, StopBits 1 succeeds and leaves the
two-stop-bit flag clear, StopBits 2 succeeds and sets it, and any other
value fails with the invalid-stop-bits error. -/
theorem spec_C8_stop_bits (o : OpenOptions)
    (ht : timingOk o)
    (hb : baudRateOk o.baudRate = true)
    (hd : o.dataBits ∈ [5, 6, 7, 8])
    (hp : o.parityMode ∈ [PARITY_NONE, PARITY_ODD, PARITY_EVEN]) :
    (o.stopBits = 1 →
      ∃ t, convertOptions o = .ok t ∧ t.c_cflag &&& kCSTOPB = 0) ∧
    (o.stopBits = 2 →
      ∃ t, convertOptions o = .ok t ∧ t.c_cflag &&& kCSTOPB = kCSTOPB) ∧
    (o.stopBits ∉ [1, 2] →
      convertOptions o = .error "Invalid setting for StopBits.") := by
  obtain ⟨cs, hcs⟩ := csBitsOf_of_mem _ hd
  obtain ⟨pb, hpb⟩ := parityBitsOf_of_mem _ hp
  refine ⟨?_, ?_, ?_⟩
  · intro hsm
    have hst : stopFlagOf o.stopBits = some 0 := by rw [hsm]; rfl
    refine ⟨_, convertOptions_eq_ok o cs 0 pb ht hb hcs hst hpb, ?_⟩
    rcases csBitsOf_some_cases _ _ hcs with rfl | rfl | rfl | rfl <;>
      rcases parityBitsOf_some_cases _ _ hpb with rfl | rfl | rfl <;>
        (simp only []; decide)
  · intro hsm
    have hst : stopFlagOf o.stopBits = some kCSTOPB := by rw [hsm]; rfl
    refine ⟨_, convertOptions_eq_ok o cs kCSTOPB pb ht hb hcs hst hpb, ?_⟩
    rcases csBitsOf_some_cases _ _ hcs with rfl | rfl | rfl | rfl <;>
      rcases parityBitsOf_some_cases _ _ hpb with rfl | rfl | rfl <;>
        (simp only []; decide)
  · intro hsm
    exact convertOptions_err_stop o cs ht hb hcs (stopFlagOf_of_not_mem _ hsm)

/-- C8 witness: applied at `oGood` (StopBits 1). -/
theorem spec_C8_witness :
    ∃ t, convertOptions oGood = .ok t ∧ t.c_cflag &&& kCSTOPB = 0 :=
  (spec_C8_stop_bits oGood (by decide) rfl (by decide) (by decide)).1 rfl

/-- C9: every successful conversion has both baseline control flags —
ignore-modem-status-lines (`kCLOCAL`) and enable-receiver (`kCREAD`) —
set in the control-flags word, whatever the option values. -/
theorem spec_C9_baseline_flags (o : OpenOptions) (t : termios)
    (h : convertOptions o = .ok t) :
    t.c_cflag &&& kCLOCAL = kCLOCAL ∧ t.c_cflag &&& kCREAD = kCREAD := by
  obtain ⟨cs, st, pb, hcs, hst, hpb, ht, hb, rfl⟩ := convertOptions_ok_inv o t h
  rcases csBitsOf_some_cases _ _ hcs with rfl | rfl | rfl | rfl <;>
    rcases stopFlagOf_some_cases _ _ hst with rfl | rfl <;>
      rcases parityBitsOf_some_cases _ _ hpb with rfl | rfl | rfl <;>
        exact ⟨by simp only []; decide, by simp only []; decide⟩

/-- C9 witness: applied at `oGood`, whose conversion is `tGood`. -/
theorem spec_C9_witness :
    tGood.c_cflag &&& kCLOCAL = kCLOCAL ∧ tGood.c_cflag &&& kCREAD = kCREAD :=
  spec_C9_baseline_flags oGood tGood rfl

/-- C10: every successful conversion leaves the input-flags,
output-flags and line-flags words zero (so in particular the
input-parity-check and byte-stripping input flags are never enabled),
and every control-character slot other than MIN (16) and TIME (17) is
zero. -/
theorem spec_C10_quiet_flags (o : OpenOptions) (t : termios)
    (h : convertOptions o = .ok t) :
    t.c_iflag = 0 ∧ t.c_oflag = 0 ∧ t.c_lflag = 0 ∧
    ∀ i, i < 20 → i ≠ 16 → i ≠ 17 → t.c_cc.get? i = some 0 := by
  obtain ⟨cs, st, pb, hcs, hst, hpb, ht, hb, rfl⟩ := convertOptions_ok_inv o t h
  exact ⟨rfl, rfl, rfl, fun i hi h16 h17 => cc_other_slots _ _ i hi h16 h17⟩

/-- C10 witness: applied at `oGoodC10`, whose conversion is
`tGoodC10`. -/
theorem spec_C10_witness :
    tGoodC10.c_iflag = 0 ∧ tGoodC10.c_oflag = 0 ∧ tGoodC10.c_lflag = 0 ∧
    ∀ i, i < 20 → i ≠ 16 → i ≠ 17 → tGoodC10.c_cc.get? i = some 0 :=
  spec_C10_quiet_flags oGoodC10 tGoodC10 rfl

end GoSerial
